import Mathlib

/-!
Verification development for the Sparkify churn-classification batch job
(src/models/build_model.py).  The PySpark dataframe program is shallowly
embedded: a dataframe is a list of rows, each dataframe transformation is a
Lean function on lists, window aggregates become explicit per-user functions,
and the external ML library calls (pipeline fitting) are abstracted as a
function parameter.  The current wall-clock time used by days_active and the
per-row random draws used by randomSplit are nondeterministic inputs of the
program and are passed in as explicit parameters.
-/

namespace Churn

/-- One event row of the Sparkify log, restricted to the columns the script
reads.  The userId column is nullable in the data, so it is an Option; the
remaining columns are always present on rows that carry a real user. -/
structure Event where
  userId : Option String
  gender : String
  level : String
  location : String
  page : String
  sessionId : Nat
  ts : Nat
deriving DecidableEq

/-- SQL three-valued inequality: comparing NULL with a string yields NULL
(modelled as none), otherwise the Boolean result of the comparison. -/
def nullSafeNe (v : Option String) (t : String) : Option Bool :=
  v.map (fun x => x != t)

/-- clean_data (lines 37-51): keeps the rows satisfying df[userId] != "".
A dataframe filter keeps a row only when the predicate is TRUE, so rows with
NULL userId are dropped together with rows whose userId is the empty
string. -/
def clean_data (df : List Event) : List Event :=
  df.filter (fun e => (nullSafeNe e.userId "").getD false)

/-- The userId of a row, defaulting the NULL case; on cleaned rows the
default is never used. -/
def uid (e : Event) : String := e.userId.getD ""

/-- The rows of one user: the window partition for Window.partitionBy(userId). -/
def userRows (df : List Event) (u : String) : List Event :=
  df.filter (fun e => uid e == u)

/-- max(ts) over the partition of user u (line 100); 0 when the user has no
rows, in which case the value is never consulted. -/
def lastTs (df : List Event) (u : String) : Nat :=
  match (userRows df u).map (fun e => e.ts) with
  | [] => 0
  | t :: rest => rest.foldl max t

/-- min(ts) over the partition of user u (line 101). -/
def firstTs (df : List Event) (u : String) : Nat :=
  match (userRows df u).map (fun e => e.ts) with
  | [] => 0
  | t :: rest => rest.foldl min t

/-- get_date_from_ts (lines 104-112) formats the millisecond timestamp as a
UTC calendar date; two timestamps get the same date string exactly when they
fall on the same UTC day, so the embedding represents the date by the day
number since the epoch. -/
def dateOf (ts : Nat) : Nat := ts / 86400000

/-- The cancellation_event udf (line 81) composed with the membership test of
fill_array (lines 87-96): churn is 1 exactly when some row of the same user
has page Cancellation Confirmation. -/
def churnOf (df : List Event) (u : String) : Nat :=
  if df.any (fun e => uid e == u && e.page == "Cancellation Confirmation") then 1 else 0

/-- when(last_ts == ts, level) (line 115): non-NULL only on the rows carrying
the maximal timestamp of their user. -/
def lastLevelPre (df : List Event) (e : Event) : Option String :=
  if e.ts = lastTs df (uid e) then some e.level else none

/-- The NextSong rows of user u (line 119). -/
def nextSongRows (df : List Event) (u : String) : List Event :=
  (userRows df u).filter (fun e => e.page == "NextSong")

/-- Count of NextSong rows of user u on day d: the count over the window
partitioned by (userId, date) on the page == NextSong rows (line 119). -/
def songsPerDay (df : List Event) (u : String) (d : Nat) : Nat :=
  ((nextSongRows df u).filter (fun e => dateOf e.ts == d)).length

/-- The distinct days on which user u played a song (the distinct
(userId, date) rows of line 119). -/
def songDays (df : List Event) (u : String) : List Nat :=
  ((nextSongRows df u).map (fun e => dateOf e.ts)).dedup

/-- avg(songs) over the distinct per-day rows of user u (line 121). -/
def avgSongs (df : List Event) (u : String) : Rat :=
  (((songDays df u).map (fun d => (songsPerDay df u d : Rat))).sum) /
    ((songDays df u).length : Rat)

/-- Count of all rows of user u on day d (line 127). -/
def eventsPerDay (df : List Event) (u : String) (d : Nat) : Nat :=
  ((userRows df u).filter (fun e => dateOf e.ts == d)).length

/-- The distinct days on which user u produced any event (line 127). -/
def eventDays (df : List Event) (u : String) : List Nat :=
  ((userRows df u).map (fun e => dateOf e.ts)).dedup

/-- avg(events) over the distinct per-day rows of user u (line 129). -/
def avgEvents (df : List Event) (u : String) : Rat :=
  (((eventDays df u).map (fun d => (eventsPerDay df u d : Rat))).sum) /
    ((eventDays df u).length : Rat)

/-- Floor of a rational, computed on the numerator and the positive
denominator. -/
def ratFloor (q : Rat) : Int := q.num.fdiv (q.den : Int)

/-- round(x, 2) (lines 123 and 131): round to two decimal places, half up.
The rounded per-day averages are nonnegative, where rounding half up agrees
with floor of the value plus one half. -/
def round2 (q : Rat) : Rat := ((ratFloor (q * 100 + 1 / 2) : Int) : Rat) / 100

/-- Number of Thumbs Up rows of user u (line 135); the count over the
partition of u of the page == Thumbs Up rows.  The left join of line 179
followed by fillna(0) of line 180 delivers exactly this value, 0 included. -/
def thumbsUp (df : List Event) (u : String) : Nat :=
  ((userRows df u).filter (fun e => e.page == "Thumbs Up")).length

/-- Number of Thumbs Down rows of user u (line 140). -/
def thumbsDown (df : List Event) (u : String) : Nat :=
  ((userRows df u).filter (fun e => e.page == "Thumbs Down")).length

/-- Number of Add Friend rows of user u (line 171). -/
def addFriend (df : List Event) (u : String) : Nat :=
  ((userRows df u).filter (fun e => e.page == "Add Friend")).length

/-- days_active (lines 144-146): difference in days between now and the date
of the first event; the current day number is a parameter of the job. -/
def daysActive (nowDay : Nat) (df : List Event) (u : String) : Int :=
  (nowDay : Int) - (dateOf (firstTs df u) : Int)

/-- Split a character list at every occurrence of c, mirroring the Python
str.split which always returns at least one (possibly empty) piece. -/
def splitChars (c : Char) : List Char → List (List Char)
  | [] => [[]]
  | ch :: rest =>
    let r := splitChars c rest
    if ch = c then [] :: r
    else
      match r with
      | [] => [[ch]]
      | g :: gs => (ch :: g) :: gs

/-- str.split(sep) on strings. -/
def splitOnChar (c : Char) (s : String) : List String :=
  (splitChars c s.toList).map (fun l => String.mk l)

/-- Whitespace test used by str.strip. -/
def isSpaceChar (c : Char) : Bool :=
  c == ' ' || c == '\t' || c == '\n' || c == '\r'

/-- str.strip(): drop whitespace from both ends. -/
def strip (s : String) : String :=
  String.mk (((s.toList.dropWhile isSpaceChar).reverse.dropWhile isSpaceChar).reverse)

/-- get_state (lines 149-154): the text after the last comma of the location,
stripped; when longer than two characters, the text after its last dash,
stripped. -/
def get_state (location : String) : String :=
  let loc := strip ((splitOnChar ',' location).getLastD "")
  if loc.length > 2 then strip ((splitOnChar '-' loc).getLastD "") else loc

/-- when(last_ts == ts, state) (line 160): the state of the row, non-NULL
only on the rows carrying the maximal timestamp of their user. -/
def lastStatePre (df : List Event) (e : Event) : Option String :=
  if e.ts = lastTs df (uid e) then some (get_state e.location) else none

/-- groupBy(last_state).count() (line 163): each distinct value of the
nullable last_state column paired with its number of occurrences. -/
def stateGroups (df : List Event) : List (Option String × Nat) :=
  ((df.map (fun e => lastStatePre df e)).dedup).map
    (fun v => (v, ((df.map (fun e => lastStatePre df e)).filter (fun w => w == v)).length))

/-- Insertion into a list sorted by descending count. -/
def insertByCount (p : Option String × Nat) :
    List (Option String × Nat) → List (Option String × Nat)
  | [] => [p]
  | q :: qs => if q.2 ≤ p.2 then p :: q :: qs else q :: insertByCount p qs

/-- sort(count desc) (line 163), determinized as an insertion sort; the order
among groups of equal count is unspecified by the engine. -/
def sortByCountDesc (l : List (Option String × Nat)) : List (Option String × Nat) :=
  l.foldr insertByCount []

/-- top_states_list (lines 163-164): the first eleven groups of the sorted
counts, with the first row dropped by the pandas slice [1:]. -/
def topStatesList (df : List Event) : List (Option String) :=
  (((sortByCountDesc (stateGroups df)).take 11).drop 1).map Prod.fst

/-- when(last_state.isin(top_states_list), last_state).otherwise(OTHER)
(line 167): a NULL value never satisfies isin and becomes OTHER; a non-NULL
value is kept exactly when it occurs in the list. -/
def bucketState (tops : List (Option String)) (v : Option String) : String :=
  match v with
  | none => "OTHER"
  | some s => if some s ∈ tops then s else "OTHER"

/-- The six columns selected into df_ml at line 175. -/
structure SelectedRow where
  userId : String
  gender : String
  churn : Nat
  last_level : String
  days_active : Int
  last_state : String
deriving DecidableEq

/-- One row of line 175 built from an event row whose last_level is
non-NULL. -/
def baseRow (nowDay : Nat) (df : List Event) (tops : List (Option String))
    (e : Event) (lvl : String) : SelectedRow :=
  { userId := uid e
    gender := e.gender
    churn := churnOf df (uid e)
    last_level := lvl
    days_active := daysActive nowDay df (uid e)
    last_state := bucketState tops (lastStatePre df e) }

/-- select(...).dropna().drop_duplicates() (lines 175-176): of the selected
columns only last_level is nullable, so dropna keeps exactly the rows whose
timestamp is the maximum of their user. -/
def baseTable (nowDay : Nat) (df : List Event) (tops : List (Option String)) :
    List SelectedRow :=
  (df.filterMap (fun e =>
    match lastLevelPre df e with
    | some lvl => some (baseRow nowDay df tops e lvl)
    | none => none)).dedup

/-- The full row of df_ml after the joins of lines 177-185. -/
structure MLRow where
  userId : String
  gender : String
  churn : Nat
  last_level : String
  days_active : Int
  last_state : String
  avg_songs : Rat
  avg_events : Rat
  thumbs_up : Nat
  thumbs_down : Nat
  addfriend : Nat
deriving DecidableEq

/-- Attach the joined per-user aggregate columns to a selected row. -/
def fullRow (df : List Event) (r : SelectedRow) : MLRow :=
  { userId := r.userId
    gender := r.gender
    churn := r.churn
    last_level := r.last_level
    days_active := r.days_active
    last_state := r.last_state
    avg_songs := round2 (avgSongs df r.userId)
    avg_events := round2 (avgEvents df r.userId)
    thumbs_up := thumbsUp df r.userId
    thumbs_down := thumbsDown df r.userId
    addfriend := addFriend df r.userId }

/-- prepare_dataset (lines 53-187), returning the df_ml output.  The inner
joins with the songs and events aggregates (lines 177-178) keep a row only
when its user occurs in the joined table, i.e. has at least one NextSong row,
resp. at least one row; the left joins with the thumbs and addfriend tables
followed by fillna(0) always succeed and are part of fullRow. -/
def prepare_dataset (nowDay : Nat) (df0 : List Event) : List MLRow :=
  let df := clean_data df0
  let tops := topStatesList df
  (baseTable nowDay df tops).filterMap (fun r =>
    if nextSongRows df r.userId ≠ [] ∧ userRows df r.userId ≠ [] then
      some (fullRow df r)
    else none)

/-! ### Basic lemmas about the embedded pipeline -/

theorem prepare_dataset_def (nowDay : Nat) (df0 : List Event) :
    prepare_dataset nowDay df0 =
      (baseTable nowDay (clean_data df0) (topStatesList (clean_data df0))).filterMap
        (fun r =>
          if nextSongRows (clean_data df0) r.userId ≠ [] ∧
              userRows (clean_data df0) r.userId ≠ [] then
            some (fullRow (clean_data df0) r)
          else none) := rfl

@[simp] theorem baseRow_userId (nowDay : Nat) (df : List Event) (tops : List (Option String))
    (e : Event) (lvl : String) : (baseRow nowDay df tops e lvl).userId = uid e := rfl

@[simp] theorem baseRow_gender (nowDay : Nat) (df : List Event) (tops : List (Option String))
    (e : Event) (lvl : String) : (baseRow nowDay df tops e lvl).gender = e.gender := rfl

@[simp] theorem baseRow_churn (nowDay : Nat) (df : List Event) (tops : List (Option String))
    (e : Event) (lvl : String) : (baseRow nowDay df tops e lvl).churn = churnOf df (uid e) := rfl

@[simp] theorem baseRow_last_level (nowDay : Nat) (df : List Event) (tops : List (Option String))
    (e : Event) (lvl : String) : (baseRow nowDay df tops e lvl).last_level = lvl := rfl

@[simp] theorem baseRow_last_state (nowDay : Nat) (df : List Event) (tops : List (Option String))
    (e : Event) (lvl : String) :
    (baseRow nowDay df tops e lvl).last_state = bucketState tops (lastStatePre df e) := rfl

@[simp] theorem fullRow_userId (df : List Event) (r : SelectedRow) :
    (fullRow df r).userId = r.userId := rfl

@[simp] theorem fullRow_churn (df : List Event) (r : SelectedRow) :
    (fullRow df r).churn = r.churn := rfl

@[simp] theorem fullRow_last_level (df : List Event) (r : SelectedRow) :
    (fullRow df r).last_level = r.last_level := rfl

@[simp] theorem fullRow_last_state (df : List Event) (r : SelectedRow) :
    (fullRow df r).last_state = r.last_state := rfl

@[simp] theorem fullRow_avg_songs (df : List Event) (r : SelectedRow) :
    (fullRow df r).avg_songs = round2 (avgSongs df r.userId) := rfl

@[simp] theorem fullRow_avg_events (df : List Event) (r : SelectedRow) :
    (fullRow df r).avg_events = round2 (avgEvents df r.userId) := rfl

@[simp] theorem fullRow_thumbs_up (df : List Event) (r : SelectedRow) :
    (fullRow df r).thumbs_up = thumbsUp df r.userId := rfl

@[simp] theorem fullRow_thumbs_down (df : List Event) (r : SelectedRow) :
    (fullRow df r).thumbs_down = thumbsDown df r.userId := rfl

@[simp] theorem fullRow_addfriend (df : List Event) (r : SelectedRow) :
    (fullRow df r).addfriend = addFriend df r.userId := rfl

theorem mem_clean_data {df : List Event} {e : Event} :
    e ∈ clean_data df ↔ e ∈ df ∧ ∃ s, e.userId = some s ∧ s ≠ "" := by
  rw [clean_data, List.mem_filter]
  cases h : e.userId with
  | none => simp [nullSafeNe, h]
  | some s => simp [nullSafeNe, h, bne_iff_ne]

theorem uid_of_mem_clean {df : List Event} {e : Event} (h : e ∈ clean_data df) :
    e.userId = some (uid e) ∧ uid e ≠ "" := by
  obtain ⟨-, s, hs, hne⟩ := mem_clean_data.mp h
  rw [uid, hs]
  exact ⟨rfl, hne⟩

theorem mem_userRows {df : List Event} {u : String} {e : Event} :
    e ∈ userRows df u ↔ e ∈ df ∧ uid e = u := by
  rw [userRows, List.mem_filter]
  simp

theorem le_foldl_max (l : List Nat) : ∀ b : Nat, b ≤ l.foldl max b := by
  induction l with
  | nil => intro b; exact Nat.le_refl b
  | cons x xs ih => intro b; exact Nat.le_trans (Nat.le_max_left b x) (ih (max b x))

theorem mem_le_foldl_max (l : List Nat) : ∀ (b a : Nat), a ∈ l → a ≤ l.foldl max b := by
  induction l with
  | nil => intro b a h; cases h
  | cons x xs ih =>
    intro b a h
    rcases List.mem_cons.mp h with h1 | h2
    · subst h1
      exact Nat.le_trans (Nat.le_max_right b a) (le_foldl_max xs (max b a))
    · exact ih (max b x) a h2

theorem le_lastTs {df : List Event} {u : String} {e : Event}
    (he : e ∈ df) (hu : uid e = u) : e.ts ≤ lastTs df u := by
  have hm : e.ts ∈ (userRows df u).map (fun x => x.ts) :=
    List.mem_map_of_mem _ (mem_userRows.mpr ⟨he, hu⟩)
  rw [lastTs]
  rcases hl : (userRows df u).map (fun x => x.ts) with - | ⟨t, rest⟩
  · rw [hl] at hm; cases hm
  · rw [hl] at hm
    rw [hl]
    rcases List.mem_cons.mp hm with h1 | h2
    · subst h1; exact le_foldl_max rest e.ts
    · exact mem_le_foldl_max rest t e.ts h2

theorem churnOf_eq_one_iff {df : List Event} {u : String} :
    churnOf df u = 1 ↔ ∃ e ∈ df, uid e = u ∧ e.page = "Cancellation Confirmation" := by
  rw [churnOf]
  split
  next h =>
    simp only [List.any_eq_true, Bool.and_eq_true, beq_iff_eq] at h
    exact iff_of_true rfl h
  next h =>
    refine iff_of_false (by simp) fun hx => h ?_
    simp only [List.any_eq_true, Bool.and_eq_true, beq_iff_eq]
    exact hx

theorem churnOf_eq_zero_or_one (df : List Event) (u : String) :
    churnOf df u = 0 ∨ churnOf df u = 1 := by
  rw [churnOf]; split
  · exact Or.inr rfl
  · exact Or.inl rfl

theorem lastLevelPre_eq_some {df : List Event} {e : Event} {lvl : String} :
    lastLevelPre df e = some lvl ↔ e.ts = lastTs df (uid e) ∧ lvl = e.level := by
  rw [lastLevelPre]
  split
  next h => simp [h, eq_comm]
  next h => simp [h]

theorem mem_baseTable {nowDay : Nat} {df : List Event} {tops : List (Option String)}
    {r : SelectedRow} :
    r ∈ baseTable nowDay df tops ↔
      ∃ e ∈ df, e.ts = lastTs df (uid e) ∧ r = baseRow nowDay df tops e e.level := by
  rw [baseTable, List.mem_dedup, List.mem_filterMap]
  constructor
  · rintro ⟨e, he, hsome⟩
    rcases hl : lastLevelPre df e with - | lvl
    · rw [hl] at hsome; cases hsome
    · rw [hl] at hsome
      obtain ⟨hts, hlvl⟩ := lastLevelPre_eq_some.mp hl
      refine ⟨e, he, hts, ?_⟩
      cases hsome
      rw [hlvl]
  · rintro ⟨e, he, hts, hr⟩
    refine ⟨e, he, ?_⟩
    rw [lastLevelPre_eq_some.mpr ⟨hts, rfl⟩, hr]

theorem mem_prepare {nowDay : Nat} {df0 : List Event} {r : MLRow} :
    r ∈ prepare_dataset nowDay df0 ↔
      ∃ e ∈ clean_data df0,
        e.ts = lastTs (clean_data df0) (uid e) ∧
        nextSongRows (clean_data df0) (uid e) ≠ [] ∧
        userRows (clean_data df0) (uid e) ≠ [] ∧
        r = fullRow (clean_data df0)
              (baseRow nowDay (clean_data df0) (topStatesList (clean_data df0)) e e.level) := by
  rw [prepare_dataset_def, List.mem_filterMap]
  constructor
  · rintro ⟨r6, hr6, hsome⟩
    obtain ⟨e, he, hts, hbe⟩ := mem_baseTable.mp hr6
    split at hsome
    next hcond =>
      cases hsome
      rw [hbe] at hcond
      rw [baseRow_userId] at hcond
      exact ⟨e, he, hts, hcond.1, hcond.2, by rw [hbe]⟩
    next => cases hsome
  · rintro ⟨e, he, hts, hns, hur, hr⟩
    refine ⟨baseRow nowDay (clean_data df0) (topStatesList (clean_data df0)) e e.level,
      mem_baseTable.mpr ⟨e, he, hts, rfl⟩, ?_⟩
    rw [if_pos (by rw [baseRow_userId]; exact ⟨hns, hur⟩), hr]

/-- Summing, over the distinct values of f on a list, the number of elements
mapped to that value gives back the length of the list. -/
theorem sum_count_dedup_map (f : Event → Nat) (l : List Event) :
    (((l.map f).dedup).map (fun d => (l.filter (fun e => f e == d)).length)).sum = l.length := by
  have h1 : ∀ d, (l.filter (fun e => f e == d)).length = (l.map f).count d := by
    intro d
    rw [← List.countP_eq_length_filter, List.count_eq_countP, List.countP_map]
    rfl
  rw [List.map_congr_left (fun d _ => h1 d), List.sum_map_count_dedup_eq_length,
    List.length_map]

theorem sum_cast_map (g : Nat → Nat) (ds : List Nat) :
    (ds.map (fun d => (g d : Rat))).sum = ((ds.map g).sum : Rat) := by
  rw [Nat.cast_list_sum, List.map_map]
  rfl

/-- The per-day average of events is the total number of rows of the user
divided by the number of the distinct active days of the user. -/
theorem avgEvents_eq (df : List Event) (u : String) :
    avgEvents df u = ((userRows df u).length : Rat) / ((eventDays df u).length : Rat) := by
  rw [avgEvents, sum_cast_map (fun d => eventsPerDay df u d) (eventDays df u)]
  have h : ((eventDays df u).map (fun d => eventsPerDay df u d)).sum = (userRows df u).length :=
    sum_count_dedup_map (fun e => dateOf e.ts) (userRows df u)
  rw [h]

/-- The per-day average of songs is the total number of NextSong rows of the
user divided by the number of the distinct days with a NextSong row. -/
theorem avgSongs_eq (df : List Event) (u : String) :
    avgSongs df u = ((nextSongRows df u).length : Rat) / ((songDays df u).length : Rat) := by
  rw [avgSongs, sum_cast_map (fun d => songsPerDay df u d) (songDays df u)]
  have h : ((songDays df u).map (fun d => songsPerDay df u d)).sum = (nextSongRows df u).length :=
    sum_count_dedup_map (fun e => dateOf e.ts) (nextSongRows df u)
  rw [h]

/-- The pandas slice [1:] of limit(11) retains at most ten groups. -/
theorem topStatesList_length_le (df : List Event) : (topStatesList df).length ≤ 10 := by
  rw [topStatesList, List.length_map, List.length_drop]
  have h : ((sortByCountDesc (stateGroups df)).take 11).length ≤ 11 := by
    rw [List.length_take]
    exact Nat.min_le_left 11 _
  omega

/-- The count column delivered for user u by the Thumbs Up aggregate equals
the number of rows of the whole raw frame carrying that userId and page. -/
theorem thumbsUp_eq_raw (df0 : List Event) (u : String) (hu : u ≠ "") :
    thumbsUp (clean_data df0) u =
      (df0.filter (fun e => e.userId == some u && e.page == "Thumbs Up")).length := by
  rw [thumbsUp, userRows, clean_data, List.filter_filter, List.filter_filter]
  congr 1
  apply List.filter_congr
  intro e _
  cases h : e.userId with
  | none => simp [nullSafeNe, h, uid]
  | some s =>
    rcases eq_or_ne s u with h1 | h1
    · subst h1; simp [nullSafeNe, h, uid, hu]
    · have hb : (s == u) = false := by simpa using h1
      simp [nullSafeNe, h, uid, hb]

theorem thumbsDown_eq_raw (df0 : List Event) (u : String) (hu : u ≠ "") :
    thumbsDown (clean_data df0) u =
      (df0.filter (fun e => e.userId == some u && e.page == "Thumbs Down")).length := by
  rw [thumbsDown, userRows, clean_data, List.filter_filter, List.filter_filter]
  congr 1
  apply List.filter_congr
  intro e _
  cases h : e.userId with
  | none => simp [nullSafeNe, h, uid]
  | some s =>
    rcases eq_or_ne s u with h1 | h1
    · subst h1; simp [nullSafeNe, h, uid, hu]
    · have hb : (s == u) = false := by simpa using h1
      simp [nullSafeNe, h, uid, hb]

/-! ### build_model (lines 190-263) -/

/-- Configuration of a StringIndexer stage (lines 209-211). -/
structure StringIndexerCfg where
  inputCol : String
  outputCol : String
  handleInvalid : String
deriving DecidableEq

/-- Configuration of the OneHotEncoderEstimator stage (lines 213-215). -/
structure OneHotEncoderCfg where
  inputCols : List String
  outputCols : List String
  handleInvalid : String
deriving DecidableEq

/-- Configuration of the VectorAssembler stage (line 219). -/
structure VectorAssemblerCfg where
  inputCols : List String
  outputCol : String
deriving DecidableEq

/-- Configuration of the Normalizer stage (line 222). -/
structure NormalizerCfg where
  inputCol : String
  outputCol : String
  p : Rat
deriving DecidableEq

/-- Configuration of the RandomForestClassifier stage (line 225). -/
structure RandomForestCfg where
  labelCol : String
  featuresCol : String
  numTrees : Nat
  impurity : String
  maxDepth : Nat
  featureSubsetStrategy : String
deriving DecidableEq

/-- One stage of the fitted pipeline (line 228). -/
inductive Stage where
  | indexer : StringIndexerCfg → Stage
  | encoder : OneHotEncoderCfg → Stage
  | assembler : VectorAssemblerCfg → Stage
  | normalizer : NormalizerCfg → Stage
  | randomForest : RandomForestCfg → Stage
deriving DecidableEq

def stringIndexerGender : StringIndexerCfg :=
  { inputCol := "gender", outputCol := "genderIndex", handleInvalid := "skip" }

def stringIndexerLevel : StringIndexerCfg :=
  { inputCol := "last_level", outputCol := "levelIndex", handleInvalid := "skip" }

def stringIndexerState : StringIndexerCfg :=
  { inputCol := "last_state", outputCol := "stateIndex", handleInvalid := "skip" }

def encoder : OneHotEncoderCfg :=
  { inputCols := ["genderIndex", "levelIndex", "stateIndex"]
    outputCols := ["genderVec", "levelVec", "stateVec"]
    handleInvalid := "keep" }

/-- The feature list of line 218. -/
def features : List String :=
  ["genderVec", "levelVec", "stateVec", "days_active", "avg_songs", "avg_events",
   "thumbs_up", "thumbs_down", "addfriend"]

def assembler : VectorAssemblerCfg :=
  { inputCols := features, outputCol := "rawFeatures" }

def normalizer : NormalizerCfg :=
  { inputCol := "rawFeatures", outputCol := "features", p := 1 }

def rf : RandomForestCfg :=
  { labelCol := "label", featuresCol := "features", numTrees := 120, impurity := "gini",
    maxDepth := 5, featureSubsetStrategy := "sqrt" }

/-- The stage list of line 228. -/
def pipeline : List Stage :=
  [Stage.indexer stringIndexerGender, Stage.indexer stringIndexerLevel,
   Stage.indexer stringIndexerState, Stage.encoder encoder, Stage.assembler assembler,
   Stage.normalizer normalizer, Stage.randomForest rf]

/-- A fitted model, abstracted to its prediction function on feature rows. -/
def Model : Type := MLRow → Rat

/-- randomSplit with normalized weights; every row is tagged with its index,
draws a value through the random oracle, and lands in the first part exactly
when the draw is below the threshold, otherwise in the second part.  The two
parts are disjoint by construction and exhaust the input. -/
def randomSplit {α : Type} (thr : Rat) (rand : Nat → Rat) (l : List α) :
    List α × List α :=
  ((l.enum.filter (fun p => decide (rand p.1 < thr))).map Prod.snd,
   (l.enum.filter (fun p => !decide (rand p.1 < thr))).map Prod.snd)

/-- The prediction-label pairs of lines 239, 247 and 255: the label column is
the renamed churn column. -/
def predLabels (model : Model) (l : List MLRow) : List (Rat × Rat) :=
  l.map (fun r => (model r, (r.churn : Rat)))

/-- MulticlassMetrics.fMeasure() on prediction-label pairs: with micro
averaging precision, recall and the F1 measure all equal the fraction of
pairs whose prediction equals the label. -/
def fMeasure (pl : List (Rat × Rat)) : Rat :=
  ((pl.filter (fun p => decide (p.1 = p.2))).length : Rat) / (pl.length : Rat)

/-- build_model (lines 190-263): renames churn to label, splits 70/30 with
seed 2048, splits the remainder 50/50 with seed 2048, fits the pipeline on
the train part, and prints one F1 score per split.  The fitting of the
external ML pipeline is abstracted as the function parameter fit, and the two
seeded random streams as the oracles r1 and r2.  The result is the fitted
model together with the printed report lines. -/
def build_model (fit : List Stage → List MLRow → Model) (r1 r2 : Nat → Rat)
    (df_ml : List MLRow) : Model × List (String × Rat) :=
  let s1 := randomSplit (7 / 10) r1 df_ml
  let s2 := randomSplit (1 / 2) r2 s1.2
  let model := fit pipeline s1.1
  (model,
   [("Train F1", fMeasure (predLabels model s1.1)),
    ("Test F1", fMeasure (predLabels model s2.1)),
    ("Validation F1", fMeasure (predLabels model s2.2))])

/-- The two parts of randomSplit together are a permutation of the input. -/
theorem randomSplit_perm {α : Type} (thr : Rat) (rand : Nat → Rat) (l : List α) :
    ((randomSplit thr rand l).1 ++ (randomSplit thr rand l).2).Perm l := by
  rw [randomSplit, ← List.map_append]
  have h := List.filter_append_perm (fun p : Nat × α => decide (rand p.1 < thr)) l.enum
  have h2 := h.map Prod.snd
  rw [List.enum_eq_enumFrom, List.enumFrom_map_snd] at h2
  exact h2

/-! ### main (lines 276-301) -/

/-- The observable actions of the main routine, in order. -/
inductive Action where
  | print : String → Action
  | loadData : String → Action
  | prepareData : Action
  | trainModel : Action
  | saveModel : String → Action
deriving DecidableEq

/-- The usage message of lines 300-301; the two adjacent Python string
literals concatenate without a separator. -/
def usageMsg : String :=
  "Give data filepath as argument one and the path to save the resulting mdoel as argment two.Example: python train_classifier.py ../data/sparkify.csv classifier"

/-- main (lines 276-301): with exactly three entries in sys.argv (the script
name and two user arguments) it runs the load, prepare, build, save pipeline
with its progress prints; with any other argument count it only prints the
usage message. -/
def main (argv : List String) : List Action :=
  match argv with
  | [_, data_filepath, model_filepath] =>
    [Action.print "Loading data...\n", Action.loadData data_filepath,
     Action.print "Processing data... \n", Action.prepareData,
     Action.print "Building mode... \n", Action.trainModel,
     Action.print "Saving model... \n", Action.saveModel model_filepath,
     Action.print "Training Complete. \n"]
  | _ => [Action.print usageMsg]

/-- Bridging a cleaned-frame existence statement to the raw frame. -/
theorem exists_page_clean_iff (df0 : List Event) (u p : String) (hu : u ≠ "") :
    (∃ e ∈ clean_data df0, uid e = u ∧ e.page = p) ↔
      ∃ e ∈ df0, e.userId = some u ∧ e.page = p := by
  constructor
  · rintro ⟨e, he, hue, hp⟩
    obtain ⟨hid, -⟩ := uid_of_mem_clean he
    exact ⟨e, (mem_clean_data.mp he).1, by rw [hid, hue], hp⟩
  · rintro ⟨e, he, hid, hp⟩
    refine ⟨e, mem_clean_data.mpr ⟨he, u, hid, hu⟩, ?_, hp⟩
    rw [uid, hid]
    rfl

/-- bucketState on a non-NULL value, unfolded. -/
theorem bucketState_some (tops : List (Option String)) (s : String) :
    bucketState tops (some s) = if some s ∈ tops then s else "OTHER" := rfl

/-! ### Concrete data used by the witnesses -/

def e1 : Event :=
  { userId := some "u1", gender := "F", level := "paid", location := "Boston, MA",
    page := "NextSong", sessionId := 1, ts := 1000 }

def e2 : Event :=
  { userId := some "u1", gender := "F", level := "paid", location := "Boston, MA",
    page := "Thumbs Up", sessionId := 1, ts := 2000 }

def e3 : Event :=
  { userId := some "u1", gender := "F", level := "paid", location := "Boston, MA",
    page := "Cancellation Confirmation", sessionId := 1, ts := 3000 }

def e4 : Event :=
  { userId := some "u2", gender := "M", level := "free", location := "Hicksville, NY",
    page := "NextSong", sessionId := 2, ts := 1500 }

def e5 : Event :=
  { userId := none, gender := "F", level := "free", location := "Boston, MA",
    page := "Home", sessionId := 9, ts := 500 }

def e6 : Event :=
  { userId := some "", gender := "M", level := "free", location := "Boston, MA",
    page := "Login", sessionId := 9, ts := 600 }

/-- A small event log: two real users, one NULL userId row, one empty
userId row. -/
def dfEx : List Event := [e1, e2, e3, e4, e5, e6]

def rU1 : MLRow :=
  { userId := "u1", gender := "F", churn := 1, last_level := "paid", days_active := 0,
    last_state := "MA", avg_songs := 1, avg_events := 3, thumbs_up := 1, thumbs_down := 0,
    addfriend := 0 }

def rU2 : MLRow :=
  { userId := "u2", gender := "M", churn := 0, last_level := "free", days_active := 0,
    last_state := "NY", avg_songs := 1, avg_events := 1, thumbs_up := 0, thumbs_down := 0,
    addfriend := 0 }

/-- Concrete evaluation of the whole feature pipeline on the example log. -/
theorem prepare_dfEx : prepare_dataset 0 dfEx = [rU1, rU2] := by
  with_unfolding_all rfl

/-! ### Claims -/

/-- Claim C2: clean_data returns exactly those rows of its input whose userId
is present (not NULL) and not the empty string; every kept row is the
unchanged input row (the output is a sublist of the input and the
multiplicity of every kept row is preserved), and every other row is
removed. -/
theorem clean_data_spec (df : List Event) :
    (∀ e, e ∈ clean_data df ↔ e ∈ df ∧ ∃ s, e.userId = some s ∧ s ≠ "") ∧
    (clean_data df).Sublist df ∧
    (∀ e s, e.userId = some s → s ≠ "" → (clean_data df).count e = df.count e) ∧
    (∀ e, e.userId = none ∨ e.userId = some "" → e ∉ clean_data df) := by
  refine ⟨fun e => mem_clean_data, List.filter_sublist _, ?_, ?_⟩
  · intro e s hs hne
    rw [clean_data]
    apply List.count_filter
    simp [nullSafeNe, hs, hne]
  · rintro e (h | h) hmem
    · obtain ⟨-, s, hs, -⟩ := mem_clean_data.mp hmem
      rw [h] at hs
      cases hs
    · obtain ⟨-, s, hs, hne⟩ := mem_clean_data.mp hmem
      rw [h] at hs
      cases hs
      exact hne rfl

theorem clean_data_spec_witness :
    e1 ∈ clean_data dfEx ∧ (clean_data dfEx).count e1 = dfEx.count e1 ∧
      e5 ∉ clean_data dfEx ∧ e6 ∉ clean_data dfEx :=
  ⟨((clean_data_spec dfEx).1 e1).mpr ⟨by decide, "u1", rfl, by decide⟩,
   (clean_data_spec dfEx).2.2.1 e1 "u1" rfl (by decide),
   (clean_data_spec dfEx).2.2.2 e5 (Or.inl rfl),
   (clean_data_spec dfEx).2.2.2 e6 (Or.inr rfl)⟩

/-- Claim C3: build_model splits the dataset into train, test and validation
parts that partition it (as multisets of rows: their concatenation is a
permutation of the input, and each indexed row lands in exactly one part),
fits the pipeline ending in the random-forest stage on the train part only,
and reports one F1 score for each of the three parts, computed from the
predictions of the fitted model. -/
theorem build_model_spec (fit : List Stage → List MLRow → Model) (r1 r2 : Nat → Rat)
    (df_ml : List MLRow) :
    ((randomSplit (7 / 10) r1 df_ml).1 ++
        ((randomSplit (1 / 2) r2 (randomSplit (7 / 10) r1 df_ml).2).1 ++
          (randomSplit (1 / 2) r2 (randomSplit (7 / 10) r1 df_ml).2).2)).Perm df_ml ∧
    (build_model fit r1 r2 df_ml).1 = fit pipeline (randomSplit (7 / 10) r1 df_ml).1 ∧
    (build_model fit r1 r2 df_ml).2 =
      [("Train F1",
        fMeasure (predLabels (fit pipeline (randomSplit (7 / 10) r1 df_ml).1)
          (randomSplit (7 / 10) r1 df_ml).1)),
       ("Test F1",
        fMeasure (predLabels (fit pipeline (randomSplit (7 / 10) r1 df_ml).1)
          (randomSplit (1 / 2) r2 (randomSplit (7 / 10) r1 df_ml).2).1)),
       ("Validation F1",
        fMeasure (predLabels (fit pipeline (randomSplit (7 / 10) r1 df_ml).1)
          (randomSplit (1 / 2) r2 (randomSplit (7 / 10) r1 df_ml).2).2))] := by
  refine ⟨?_, rfl, rfl⟩
  have h2 := randomSplit_perm (1 / 2) r2 (randomSplit (7 / 10) r1 df_ml).2
  have h1 := randomSplit_perm (7 / 10) r1 df_ml
  exact (List.Perm.append_left _ h2).trans h1

/-- Claim C7: the pipeline string-indexes and one-hot-encodes exactly the
three categorical columns gender, last_level and last_state, and assembles
the encoded vectors together with the six numeric features days_active,
avg_songs, avg_events, thumbs_up, thumbs_down and addfriend into a single
feature vector. -/
theorem pipeline_encoding_spec :
    (pipeline.filterMap (fun s =>
        match s with
        | Stage.indexer c => some c.inputCol
        | _ => none) = ["gender", "last_level", "last_state"]) ∧
    encoder.inputCols =
      [stringIndexerGender.outputCol, stringIndexerLevel.outputCol,
       stringIndexerState.outputCol] ∧
    encoder.outputCols = ["genderVec", "levelVec", "stateVec"] ∧
    assembler.inputCols =
      encoder.outputCols ++
        ["days_active", "avg_songs", "avg_events", "thumbs_up", "thumbs_down", "addfriend"] :=
  ⟨rfl, rfl, rfl, rfl⟩

/-- Claim C10: main runs the load, prepare, train, save pipeline exactly when
sys.argv has three entries, i.e. exactly two user-supplied arguments (the
data filepath and the model filepath); with any other argument count it only
prints the usage message and performs no loading, training or saving. -/
theorem main_spec (argv : List String) :
    (∀ s d m, argv = [s, d, m] → main argv =
      [Action.print "Loading data...\n", Action.loadData d,
       Action.print "Processing data... \n", Action.prepareData,
       Action.print "Building mode... \n", Action.trainModel,
       Action.print "Saving model... \n", Action.saveModel m,
       Action.print "Training Complete. \n"]) ∧
    (argv.length ≠ 3 → main argv = [Action.print usageMsg]) ∧
    (argv.length = 3 ↔ Action.trainModel ∈ main argv) := by
  match argv with
  | [] =>
    refine ⟨fun s d m h => (by cases h), fun _ => rfl, ?_⟩
    simp [main]
  | [a] =>
    refine ⟨fun s d m h => (by cases h), fun _ => rfl, ?_⟩
    simp [main]
  | [a, b] =>
    refine ⟨fun s d m h => (by cases h), fun _ => rfl, ?_⟩
    simp [main]
  | [a, b, c] =>
    refine ⟨?_, fun h => absurd rfl h, ?_⟩
    · intro s d m h
      obtain ⟨h1, h2, h3⟩ : a = s ∧ b = d ∧ c = m := by simpa using h
      subst h2
      subst h3
      rfl
    · simp [main]
  | a :: b :: c :: d :: tl =>
    refine ⟨?_, fun _ => rfl, ?_⟩
    · intro s d2 m h
      simp at h
    · constructor
      · intro h
        simp at h
      · intro h
        simp [main] at h

theorem main_spec_witness :
    main ["train_classifier.py", "data.json", "model"] =
      [Action.print "Loading data...\n", Action.loadData "data.json",
       Action.print "Processing data... \n", Action.prepareData,
       Action.print "Building mode... \n", Action.trainModel,
       Action.print "Saving model... \n", Action.saveModel "model",
       Action.print "Training Complete. \n"] ∧
    main ["train_classifier.py"] = [Action.print usageMsg] :=
  ⟨(main_spec _).1 "train_classifier.py" "data.json" "model" rfl,
   (main_spec ["train_classifier.py"]).2.1 (by decide)⟩

/-- Claim C1: on every row of the output of prepare_dataset, churn is 1
exactly when the userId of the row belongs to a user having at least one
Cancellation Confirmation event among the rows with a non-empty userId, and
all output rows of one user carry the same churn value. -/
theorem churn_label_spec (nowDay : Nat) (df0 : List Event) (r : MLRow)
    (hr : r ∈ prepare_dataset nowDay df0) :
    (r.churn = 1 ↔
      ∃ e ∈ df0, e.userId = some r.userId ∧ e.page = "Cancellation Confirmation") ∧
    ∀ r2 ∈ prepare_dataset nowDay df0, r2.userId = r.userId → r2.churn = r.churn := by
  obtain ⟨e, he, hts, hns, hur, hfull⟩ := mem_prepare.mp hr
  have huid : r.userId = uid e := by rw [hfull]; rfl
  have hch : r.churn = churnOf (clean_data df0) (uid e) := by rw [hfull]; rfl
  have hne : uid e ≠ "" := (uid_of_mem_clean he).2
  constructor
  · rw [hch, huid, churnOf_eq_one_iff]
    exact exists_page_clean_iff df0 (uid e) "Cancellation Confirmation" hne
  · intro r2 hr2 hu2
    obtain ⟨e2, he2, -, -, -, hfull2⟩ := mem_prepare.mp hr2
    have hch2 : r2.churn = churnOf (clean_data df0) (uid e2) := by rw [hfull2]; rfl
    have hu2eq : uid e2 = uid e := by
      have h1 : r2.userId = uid e2 := by rw [hfull2]; rfl
      rw [← h1, hu2, huid]
    rw [hch2, hch, hu2eq]

theorem churn_label_spec_witness :
    ∃ e ∈ dfEx, e.userId = some rU1.userId ∧ e.page = "Cancellation Confirmation" :=
  (churn_label_spec 0 dfEx rU1 (by simp [prepare_dfEx])).1.mp rfl

/-- Claim C4: on every row of the output of prepare_dataset, thumbs_up is the
number of events of that user with page Thumbs Up and thumbs_down is the
number of events of that user with page Thumbs Down. -/
theorem thumbs_counts_spec (nowDay : Nat) (df0 : List Event) (r : MLRow)
    (hr : r ∈ prepare_dataset nowDay df0) :
    r.thumbs_up =
      (df0.filter (fun e => e.userId == some r.userId && e.page == "Thumbs Up")).length ∧
    r.thumbs_down =
      (df0.filter (fun e => e.userId == some r.userId && e.page == "Thumbs Down")).length := by
  obtain ⟨e, he, -, -, -, hfull⟩ := mem_prepare.mp hr
  have huid : r.userId = uid e := by rw [hfull]; rfl
  have hne : r.userId ≠ "" := by rw [huid]; exact (uid_of_mem_clean he).2
  constructor
  · have h1 : r.thumbs_up = thumbsUp (clean_data df0) r.userId := by rw [hfull]; rfl
    rw [h1, thumbsUp_eq_raw df0 r.userId hne]
  · have h1 : r.thumbs_down = thumbsDown (clean_data df0) r.userId := by rw [hfull]; rfl
    rw [h1, thumbsDown_eq_raw df0 r.userId hne]

theorem thumbs_counts_spec_witness :
    rU1.thumbs_up =
      (dfEx.filter (fun e => e.userId == some rU1.userId && e.page == "Thumbs Up")).length :=
  (thumbs_counts_spec 0 dfEx rU1 (by simp [prepare_dfEx])).1

/-- Claim C5: every output row of prepare_dataset is derived from an event of
its user carrying the maximal timestamp of that user: last_level is the level
column of that latest event, and last_state is the state computed from the
location of that same latest event, kept when it occurs among the retained
top states and bucketed to OTHER otherwise. -/
theorem last_level_state_spec (nowDay : Nat) (df0 : List Event) (r : MLRow)
    (hr : r ∈ prepare_dataset nowDay df0) :
    ∃ e ∈ clean_data df0,
      uid e = r.userId ∧
      (∀ e2 ∈ clean_data df0, uid e2 = r.userId → e2.ts ≤ e.ts) ∧
      r.last_level = e.level ∧
      ((some (get_state e.location) ∈ topStatesList (clean_data df0) ∧
          r.last_state = get_state e.location) ∨
        (some (get_state e.location) ∉ topStatesList (clean_data df0) ∧
          r.last_state = "OTHER")) := by
  obtain ⟨e, he, hts, -, -, hfull⟩ := mem_prepare.mp hr
  have huid : r.userId = uid e := by rw [hfull]; rfl
  refine ⟨e, he, huid.symm, ?_, ?_, ?_⟩
  · intro e2 he2 hu2
    have h := le_lastTs he2 (by rw [hu2, huid])
    rw [← hts] at h
    exact h
  · rw [hfull]
    rfl
  · have hstate : r.last_state =
        bucketState (topStatesList (clean_data df0)) (lastStatePre (clean_data df0) e) := by
      rw [hfull]
      rfl
    rw [hstate, lastStatePre, if_pos hts, bucketState_some]
    by_cases hmem : some (get_state e.location) ∈ topStatesList (clean_data df0)
    · exact Or.inl ⟨hmem, if_pos hmem⟩
    · exact Or.inr ⟨hmem, if_neg hmem⟩

theorem last_level_state_spec_witness :
    ∃ e ∈ clean_data dfEx,
      uid e = rU1.userId ∧
      (∀ e2 ∈ clean_data dfEx, uid e2 = rU1.userId → e2.ts ≤ e.ts) ∧
      rU1.last_level = e.level ∧
      ((some (get_state e.location) ∈ topStatesList (clean_data dfEx) ∧
          rU1.last_state = get_state e.location) ∨
        (some (get_state e.location) ∉ topStatesList (clean_data dfEx) ∧
          rU1.last_state = "OTHER")) :=
  last_level_state_spec 0 dfEx rU1 (by simp [prepare_dfEx])

/-- Claim C9: on every output row of prepare_dataset, last_state is either
the literal OTHER or one of the values of the retained top-states list, and
that list has at most ten entries, so the column takes at most eleven
distinct values. -/
theorem last_state_domain_spec (nowDay : Nat) (df0 : List Event) (r : MLRow)
    (hr : r ∈ prepare_dataset nowDay df0) :
    (r.last_state = "OTHER" ∨ some r.last_state ∈ topStatesList (clean_data df0)) ∧
    (topStatesList (clean_data df0)).length ≤ 10 := by
  obtain ⟨e, he, hts, -, -, hfull⟩ := mem_prepare.mp hr
  have hstate : r.last_state =
      bucketState (topStatesList (clean_data df0)) (lastStatePre (clean_data df0) e) := by
    rw [hfull]
    rfl
  refine ⟨?_, topStatesList_length_le _⟩
  rw [hstate, lastStatePre, if_pos hts, bucketState_some]
  split
  next h => exact Or.inr h
  next h => exact Or.inl rfl

theorem last_state_domain_spec_witness :
    (rU1.last_state = "OTHER" ∨ some rU1.last_state ∈ topStatesList (clean_data dfEx)) ∧
    (topStatesList (clean_data dfEx)).length ≤ 10 :=
  last_state_domain_spec 0 dfEx rU1 (by simp [prepare_dfEx])

/-- Claim C8: a user occurs in the output of prepare_dataset exactly when it
has a row carrying its maximal timestamp in the cleaned frame and at least
one NextSong event (the inner join with the songs aggregate); the Thumbs Up,
Thumbs Down and Add Friend aggregates never decide membership, and a member
with no such events gets the corresponding count column equal to 0 through
the left join followed by fillna(0). -/
theorem join_membership_spec (nowDay : Nat) (df0 : List Event) :
    (∀ u, (∃ r ∈ prepare_dataset nowDay df0, r.userId = u) ↔
        ((∃ e ∈ clean_data df0, uid e = u ∧ e.ts = lastTs (clean_data df0) u) ∧
          nextSongRows (clean_data df0) u ≠ [])) ∧
    (∀ r ∈ prepare_dataset nowDay df0,
      ((userRows (clean_data df0) r.userId).filter (fun e => e.page == "Thumbs Up") = [] →
        r.thumbs_up = 0) ∧
      ((userRows (clean_data df0) r.userId).filter (fun e => e.page == "Thumbs Down") = [] →
        r.thumbs_down = 0) ∧
      ((userRows (clean_data df0) r.userId).filter (fun e => e.page == "Add Friend") = [] →
        r.addfriend = 0)) := by
  constructor
  · intro u
    constructor
    · rintro ⟨r, hr, hru⟩
      obtain ⟨e, he, hts, hns, -, hfull⟩ := mem_prepare.mp hr
      have huid : r.userId = uid e := by rw [hfull]; rfl
      rw [huid] at hru
      rw [hru] at hts hns
      exact ⟨⟨e, he, hru, hts⟩, hns⟩
    · rintro ⟨⟨e, he, hue, hts⟩, hns⟩
      refine ⟨fullRow (clean_data df0)
          (baseRow nowDay (clean_data df0) (topStatesList (clean_data df0)) e e.level),
        mem_prepare.mpr ⟨e, he, ?_, ?_, ?_, rfl⟩, ?_⟩
      · rw [hue]
        exact hts
      · rw [hue]
        exact hns
      · exact List.ne_nil_of_mem (mem_userRows.mpr ⟨he, rfl⟩)
      · rw [fullRow_userId, baseRow_userId, hue]
  · intro r hr
    obtain ⟨e, he, -, -, -, hfull⟩ := mem_prepare.mp hr
    refine ⟨?_, ?_, ?_⟩
    · intro hz
      have h1 : r.thumbs_up = thumbsUp (clean_data df0) r.userId := by rw [hfull]; rfl
      rw [h1, thumbsUp, hz]
      rfl
    · intro hz
      have h1 : r.thumbs_down = thumbsDown (clean_data df0) r.userId := by rw [hfull]; rfl
      rw [h1, thumbsDown, hz]
      rfl
    · intro hz
      have h1 : r.addfriend = addFriend (clean_data df0) r.userId := by rw [hfull]; rfl
      rw [h1, addFriend, hz]
      rfl

theorem join_membership_spec_witness :
    ∃ r ∈ prepare_dataset 0 dfEx, r.userId = "u2" :=
  ((join_membership_spec 0 dfEx).1 "u2").mpr
    ⟨⟨e4, by decide, by decide, by decide⟩, by decide⟩

/-! ### Claim C6: session counts -/

/-- Modelled from the words of the spec for comparison with the code: a
per-user session-count aggregate, i.e. the number of distinct sessionId
values among the rows of the user.  The pipeline of the source never reads
the sessionId column, so it cannot derive this quantity; this definition
exists only to state that divergence. -/
def sessionCountSpec (df : List Event) (u : String) : Nat :=
  (((userRows df u).map (fun e => e.sessionId)).dedup).length

def a1 : Event :=
  { userId := some "u1", gender := "F", level := "paid", location := "Boston, MA",
    page := "NextSong", sessionId := 1, ts := 1000 }

def a2 : Event :=
  { userId := some "u1", gender := "F", level := "paid", location := "Boston, MA",
    page := "NextSong", sessionId := 1, ts := 2000 }

def a3 : Event :=
  { userId := some "u1", gender := "F", level := "paid", location := "Boston, MA",
    page := "Thumbs Up", sessionId := 1, ts := 3000 }

/-- One user whose three events all happen in a single session. -/
def dfA : List Event := [a1, a2, a3]

def b1 : Event :=
  { userId := some "u1", gender := "F", level := "paid", location := "Boston, MA",
    page := "NextSong", sessionId := 1, ts := 1000 }

def b2 : Event :=
  { userId := some "u1", gender := "F", level := "paid", location := "Boston, MA",
    page := "NextSong", sessionId := 2, ts := 2000 }

def b3 : Event :=
  { userId := some "u1", gender := "F", level := "paid", location := "Boston, MA",
    page := "Thumbs Up", sessionId := 3, ts := 3000 }

/-- The same log with the events spread over three distinct sessions. -/
def dfB : List Event := [b1, b2, b3]

/-- The common output row of the two session-structure variants. -/
def rA : MLRow :=
  { userId := "u1", gender := "F", churn := 0, last_level := "paid", days_active := 0,
    last_state := "MA", avg_songs := 2, avg_events := 3, thumbs_up := 1, thumbs_down := 0,
    addfriend := 0 }

theorem prepare_dfA : prepare_dataset 0 dfA = [rA] := by
  with_unfolding_all rfl

theorem prepare_dfB : prepare_dataset 0 dfB = [rA] := by
  with_unfolding_all rfl

/-- Counterexample to claim C6: two logs whose only difference is the session
structure (one session versus three sessions of the same user) produce
literally identical prepare_dataset outputs, so no feature of the output is a
per-user session count. -/
theorem session_count_counterexample :
    prepare_dataset 0 dfA = prepare_dataset 0 dfB ∧
    sessionCountSpec (clean_data dfA) "u1" = 1 ∧
    sessionCountSpec (clean_data dfB) "u1" = 3 :=
  ⟨by rw [prepare_dfA, prepare_dfB], by decide, by decide⟩

/-- Claim C6 as amended: the per-day aggregates the feature builder derives
in place of session counts: on every output row, avg_events is the rounded
ratio of the number of rows of the user to the number of its distinct active
days, and avg_songs is the rounded ratio of the number of its NextSong rows
to the number of its distinct days with a NextSong row. -/
theorem avg_daily_spec (nowDay : Nat) (df0 : List Event) (r : MLRow)
    (hr : r ∈ prepare_dataset nowDay df0) :
    r.avg_events = round2 (((userRows (clean_data df0) r.userId).length : Rat) /
        ((((userRows (clean_data df0) r.userId).map (fun e => dateOf e.ts)).dedup).length :
          Rat)) ∧
    r.avg_songs = round2 (((nextSongRows (clean_data df0) r.userId).length : Rat) /
        ((((nextSongRows (clean_data df0) r.userId).map (fun e => dateOf e.ts)).dedup).length :
          Rat)) := by
  obtain ⟨e, he, -, -, -, hfull⟩ := mem_prepare.mp hr
  constructor
  · have h1 : r.avg_events = round2 (avgEvents (clean_data df0) r.userId) := by
      rw [hfull]
      rfl
    rw [h1, avgEvents_eq]
    rfl
  · have h1 : r.avg_songs = round2 (avgSongs (clean_data df0) r.userId) := by
      rw [hfull]
      rfl
    rw [h1, avgSongs_eq]
    rfl

theorem avg_daily_spec_witness :
    rU1.avg_events = round2 (((userRows (clean_data dfEx) rU1.userId).length : Rat) /
        ((((userRows (clean_data dfEx) rU1.userId).map (fun e => dateOf e.ts)).dedup).length :
          Rat)) :=
  (avg_daily_spec 0 dfEx rU1 (by simp [prepare_dfEx])).1

end Churn
